import Mathlib

/-!
Verification of the session lifecycle manager in
src/lib/session_management_system.py (class SessionManager).

The Python code is shallowly embedded: time is modelled as Nat seconds
(datetime.now() becomes an explicit `now` parameter per operation;
timedelta(hours=h) becomes h*3600), dictionaries become association
lists preserving insertion order, and the Remote Action Gateway
(`_execute_computer_action`, declared a placeholder in the source and an
external collaborator in the design) is modelled as an oracle input per
call.  The cryptographic primitives md5/sha256 used only to build
identifier strings are modelled as function parameters bundled in
`HashFns`, because no behaviour of the manager depends on their values.
Directory iteration order of the session storage folder is modelled as
insertion order of the store list.
-/

/-- The SessionState enum of the source (7 states). -/
inductive SessionState where
  | uninitialized
  | initializing
  | active
  | rateLimited
  | expired
  | blocked
  | error
deriving DecidableEq, Repr

/-- The SessionData dataclass.  Cookie entries and the storage mirrors are
opaque to the manager; they are modelled as key-value lists.  The viewport
dict with keys width/height is flattened into two Nat fields. -/
structure SessionData where
  platform : String
  session_id : String
  cookies : List (String × String)
  local_storage : List (String × String)
  session_storage : List (String × String)
  auth_tokens : List (String × String)
  user_agent : String
  viewport_width : Nat
  viewport_height : Nat
  state : SessionState
  created_at : Nat
  expires_at : Nat
  last_activity : Nat
  rate_limit_reset : Option Nat
  request_count : Nat
  max_requests_per_hour : Nat
  fingerprint : String
deriving DecidableEq, Repr

/-- Structured result of a Gateway action, per the response contract:
status plus extracted cookies, tokens and storage maps. -/
structure InitResult where
  success : Bool
  session_cookies : List (String × String)
  auth_tokens : List (String × String)
  local_storage : List (String × String)
  session_storage : List (String × String)
  errors : List String
deriving DecidableEq, Repr

/-- Structured result of the Gateway authentication action. -/
structure AuthResult where
  success : Bool
  auth_tokens : List (String × String)
  cookies : List (String × String)
deriving DecidableEq, Repr

/-- Outcome of one call to the external Gateway: a structured result, or a
raised exception (`fault`). -/
inductive GatewayOutcome (α : Type) where
  | ok (r : α)
  | fault
deriving DecidableEq, Repr

/-- The hash primitives used by the source to build identifier strings:
md5(platform).hexdigest()[:8] and the sha256-based fingerprint of
(platform, now).  Modelled as parameters; the manager never inspects their
values. -/
structure HashFns where
  md5hex8 : String → String
  fpHash : String → Nat → String

/-- One entry of the platform_configs table. -/
structure PlatformConfig where
  requires_auth : Bool
  max_requests_per_hour : Nat
  session_lifetime_hours : Nat
  rate_limit_detection : List String
  auth_indicators : List String
  session_indicators : List String
deriving DecidableEq, Repr

/-- The platform_configs table of SessionManager.__init__. -/
def platformConfigs (p : String) : Option PlatformConfig :=
  if p = "chatgpt" then
    some ⟨true, 50, 24,
      ["You have reached your limit", "Too many requests", "Rate limit exceeded"],
      ["button login-button", "a login"],
      ["button send-button", "textarea Message"]⟩
  else if p = "searchgpt" then
    some ⟨true, 30, 12,
      ["Search limit reached", "Please wait before searching", "Too many searches"],
      ["button login"],
      ["input Search"]⟩
  else if p = "gemini" then
    some ⟨false, 100, 8,
      ["Daily limit exceeded", "Too many requests"],
      ["button sign-in"],
      ["rich-textarea contenteditable"]⟩
  else if p = "perplexity" then
    some ⟨false, 25, 6,
      ["You have reached the limit", "Please wait", "Rate limited"],
      ["button login"],
      ["textarea Ask anything"]⟩
  else none

/-- The platform_urls table of _initialize_session. -/
def platformUrl (p : String) : Option String :=
  if p = "chatgpt" then some "https://chatgpt.com"
  else if p = "searchgpt" then some "https://chatgpt.com/?model=search"
  else if p = "gemini" then some "https://gemini.google.com"
  else if p = "perplexity" then some "https://www.perplexity.ai"
  else none

/-- The constant user agent of _generate_user_agent. -/
def uaString : String :=
  "Mozilla/5.0 (Windows NT 10.0; Win64; x64) AppleWebKit/537.36 (KHTML, like Gecko) Chrome/120.0.0.0 Safari/537.36"

/-- Decimal rendering of a nonnegative integer, embedding Python str(int)
as used inside _generate_session_id.  Structural recursion on a fuel
argument so that the function reduces inside the kernel; the fuel n + 1
always suffices since n / 10 shrinks strictly. -/
def natCharsAux : Nat → Nat → List Char
  | 0, _ => []
  | fuel + 1, n =>
    if n < 10 then [Nat.digitChar n]
    else natCharsAux fuel (n / 10) ++ [Nat.digitChar (n % 10)]

def natChars (n : Nat) : List Char := natCharsAux (n + 1) n

def natStr (n : Nat) : String := ⟨natChars n⟩

/-- Decoder for `natChars`, used only to prove injectivity. -/
def decodeChars (l : List Char) : Nat :=
  l.foldl (fun acc c => acc * 10 + (c.toNat - 48)) 0

/-- Prefix test on character lists. -/
def startsList : List Char → List Char → Bool
  | [], _ => true
  | _ :: _, [] => false
  | p :: ps, c :: cs => p == c && startsList ps cs

/-- Suffix test on character lists. -/
def endsList (p l : List Char) : Bool := startsList p.reverse l.reverse

/-- Python substring membership, pat in l (the in operator on str). -/
def hasSubList (p : List Char) : List Char → Bool
  | [] => p.isEmpty
  | c :: cs => startsList p (c :: cs) || hasSubList p cs

def strHasSub (s pat : String) : Bool := hasSubList pat.data s.data

/-- _generate_session_id: platform + timestamp second + md5 hash prefix. -/
def generateSessionId (H : HashFns) (platform : String) (now : Nat) : String :=
  platform ++ "_" ++ natStr now ++ "_" ++ H.md5hex8 platform

/-!  Serialization (pickle of dataclasses.asdict) and the session Store. -/

/-- One value inside the pickled dict form of a SessionData.  pickle round
trips Python values faithfully; the constructors cover the field types of
SessionData. -/
inductive PickleValue where
  | vStr (s : String)
  | vNat (n : Nat)
  | vOptNat (o : Option Nat)
  | vState (s : SessionState)
  | vPairs (l : List (String × String))
deriving DecidableEq, Repr

/-- dataclasses.asdict applied to a SessionData, as pickled by
_persist_session. -/
def serializeRecord (s : SessionData) : List (String × PickleValue) :=
  [ ("platform", .vStr s.platform),
    ("session_id", .vStr s.session_id),
    ("cookies", .vPairs s.cookies),
    ("local_storage", .vPairs s.local_storage),
    ("session_storage", .vPairs s.session_storage),
    ("auth_tokens", .vPairs s.auth_tokens),
    ("user_agent", .vStr s.user_agent),
    ("viewport_width", .vNat s.viewport_width),
    ("viewport_height", .vNat s.viewport_height),
    ("state", .vState s.state),
    ("created_at", .vNat s.created_at),
    ("expires_at", .vNat s.expires_at),
    ("last_activity", .vNat s.last_activity),
    ("rate_limit_reset", .vOptNat s.rate_limit_reset),
    ("request_count", .vNat s.request_count),
    ("max_requests_per_hour", .vNat s.max_requests_per_hour),
    ("fingerprint", .vStr s.fingerprint) ]

/-- SessionData(**session_data) in _restore_session: rebuilding the record
from the unpickled dict; any missing or ill-typed field fails. -/
def deserializeRecord (d : List (String × PickleValue)) : Option SessionData :=
  match d.lookup "platform", d.lookup "session_id", d.lookup "cookies",
        d.lookup "local_storage", d.lookup "session_storage",
        d.lookup "auth_tokens", d.lookup "user_agent",
        d.lookup "viewport_width", d.lookup "viewport_height",
        d.lookup "state", d.lookup "created_at", d.lookup "expires_at",
        d.lookup "last_activity", d.lookup "rate_limit_reset",
        d.lookup "request_count", d.lookup "max_requests_per_hour",
        d.lookup "fingerprint" with
  | some (.vStr p), some (.vStr sid), some (.vPairs ck), some (.vPairs ls),
    some (.vPairs ss), some (.vPairs at_), some (.vStr ua), some (.vNat vw),
    some (.vNat vh), some (.vState st), some (.vNat ca), some (.vNat ea),
    some (.vNat la), some (.vOptNat rr), some (.vNat rc), some (.vNat mx),
    some (.vStr fp) =>
      some ⟨p, sid, ck, ls, ss, at_, ua, vw, vh, st, ca, ea, la, rr, rc, mx, fp⟩
  | _, _, _, _, _, _, _, _, _, _, _, _, _, _, _, _, _ => none

/-- One blob in the session storage directory: filename, storage
last-modified time, pickled content. -/
structure StoreEntry where
  filename : String
  mtime : Nat
  blob : List (String × PickleValue)
deriving DecidableEq, Repr

/-- The storage filename used by _persist_session. -/
def sessionFilename (s : SessionData) : String :=
  s.platform ++ "_" ++ s.session_id ++ ".pkl"

/-- _persist_session: durably overwrites the blob for (platform,
session_id); mtime becomes the time of the write. -/
def persistSession (store : List StoreEntry) (s : SessionData) (now : Nat) :
    List StoreEntry :=
  store.filter (fun e => !(e.filename == sessionFilename s))
    ++ [⟨sessionFilename s, now, serializeRecord s⟩]

/-- The glob pattern platform_*.pkl of _restore_session. -/
def matchesGlob (platform : String) (fname : String) : Bool :=
  startsList (platform ++ "_").data fname.data && endsList ".pkl".data fname.data

/-- max(files, key=mtime): first file of greatest mtime in iteration
order (Python max replaces the current best only on strictly greater). -/
def latestEntry (e : StoreEntry) (es : List StoreEntry) : StoreEntry :=
  es.foldl (fun best x => if best.mtime < x.mtime then x else best) e

/-- _restore_session: pick the most recent matching blob and unpickle it;
deserialization failure yields none. -/
def restoreSession (store : List StoreEntry) (platform : String) :
    Option SessionData :=
  match store.filter (fun e => matchesGlob platform e.filename) with
  | [] => none
  | e :: es => deserializeRecord (latestEntry e es).blob

/-!  Record-level operations. -/

/-- _test_session_connectivity: a probe through the Gateway; a raised
exception is caught and reported as not-connected. -/
def testSessionConnectivity (probe : GatewayOutcome InitResult) : Bool :=
  match probe with
  | .ok r => r.success
  | .fault => false

/-- The truthiness test `session.rate_limit_reset and now < session.rate_limit_reset`. -/
def coolingDown (s : SessionData) (now : Nat) : Bool :=
  match s.rate_limit_reset with
  | some r => decide (now < r)
  | none => false

/-- _validate_session: expiry check, rate-limit cool-down check with
recovery mutation, blocked check, then the connectivity probe.  Returns
the verdict together with the (possibly mutated) record. -/
def validateSession (s : SessionData) (now : Nat)
    (probe : GatewayOutcome InitResult) : Bool × SessionData :=
  if now > s.expires_at then (false, s)
  else if s.state = SessionState.rateLimited ∧ coolingDown s now then (false, s)
  else
    let s1 := if s.state = SessionState.rateLimited
      then { s with state := SessionState.active, request_count := 0 } else s
    if s1.state = SessionState.blocked then (false, s1)
    else (testSessionConnectivity probe, s1)

/-- _update_session_activity without its final persist call (the manager
level functions below persist the result, mirroring line 352). -/
def updateSessionActivity (s : SessionData) (now : Nat) : SessionData :=
  let s1 := { s with last_activity := now, request_count := s.request_count + 1 }
  if s1.request_count ≥ s1.max_requests_per_hour then
    { s1 with state := SessionState.rateLimited, rate_limit_reset := some (now + 3600) }
  else s1

/-- The platform-specific cool-down table of handle_rate_limit, including
the substring heuristics on the detected message. -/
def rateLimitWait (platform : String) (hint : Option String) : Nat :=
  let msg := hint.getD ""
  if platform = "chatgpt" then (if strHasSub msg "hour" then 3600 else 1800)
  else if platform = "searchgpt" then 7200
  else if platform = "gemini" then (if strHasSub msg "daily" then 86400 else 3600)
  else if platform = "perplexity" then 3600
  else 3600

/-- handle_rate_limit record mutation: force RATE_LIMITED and overwrite the
reset time. -/
def handleRateLimitRecord (s : SessionData) (now : Nat) (hint : Option String) :
    SessionData :=
  { s with state := SessionState.rateLimited,
           rate_limit_reset := some (now + rateLimitWait s.platform hint) }

/-- dict.update semantics for auth token merge: existing keys overwritten
in place, new keys appended. -/
def dictUpdatePairs (old new : List (String × String)) : List (String × String) :=
  old.map (fun kv => match new.lookup kv.1 with
    | some v => (kv.1, v)
    | none => kv)
  ++ new.filter (fun kv => !(old.any (fun o => o.1 == kv.1)))

/-!  Manager-level orchestration. -/

/-- Python dict insert (overwrite in place, new keys appended). -/
def dictInsert (d : List (String × SessionData)) (k : String) (v : SessionData) :
    List (String × SessionData) :=
  if d.any (fun kv => kv.1 == k) then
    d.map (fun kv => if kv.1 == k then (k, v) else kv)
  else d ++ [(k, v)]

/-- Python del d[k]. -/
def dictRemove (d : List (String × SessionData)) (k : String) :
    List (String × SessionData) :=
  d.filter (fun kv => !(kv.1 == k))

/-- The mutable state of a SessionManager: the active_sessions dict and
the storage directory.  Locks are not represented: asyncio serializes all
per-target work, so the operational model below executes operations in
sequence. -/
structure ManagerState where
  active_sessions : List (String × SessionData)
  store : List StoreEntry
deriving DecidableEq, Repr

def emptyMS : ManagerState := ⟨[], []⟩

/-- Errors surfaced by getSession paths: the ValueError on an unknown
platform URL, and the exception re-raised on a failed Gateway
initialization. -/
inductive SessionError where
  | unknownPlatform
  | initFailed
deriving DecidableEq, Repr

/-- _initialize_session: set INITIALIZING, resolve the platform URL
(raising on unknown platforms), invoke the Gateway, merge a success
result (cookies, tokens, storage mirrors) and become ACTIVE; on a failure
outcome or a raised Gateway exception become ERROR and re-raise.  Returns
the final record, the raise-or-return outcome, and whether the Gateway
initialization action was actually performed. -/
def initializeSession (s : SessionData) (now : Nat)
    (out : GatewayOutcome InitResult) :
    SessionData × Except SessionError Unit × Bool :=
  let s0 := { s with state := SessionState.initializing }
  match platformUrl s0.platform with
  | none => (s0, Except.error SessionError.unknownPlatform, false)
  | some _ =>
    match out with
    | .fault => ({ s0 with state := SessionState.error },
                 Except.error SessionError.initFailed, true)
    | .ok r =>
      if r.success then
        ({ s0 with cookies := r.session_cookies,
                   auth_tokens := r.auth_tokens,
                   local_storage := r.local_storage,
                   session_storage := r.session_storage,
                   state := SessionState.active,
                   last_activity := now },
         Except.ok (), true)
      else
        ({ s0 with state := SessionState.error },
         Except.error SessionError.initFailed, true)

/-- _create_new_session: build a fresh UNINITIALIZED record from the
target configuration (per-field defaults for unknown targets) and run the
initialization path on it. -/
def createNewSession (H : HashFns) (platform : String) (now : Nat)
    (out : GatewayOutcome InitResult) :
    SessionData × Except SessionError Unit × Bool :=
  let cfg := platformConfigs platform
  let s : SessionData :=
    { platform := platform,
      session_id := generateSessionId H platform now,
      cookies := [],
      local_storage := [],
      session_storage := [],
      auth_tokens := [],
      user_agent := uaString,
      viewport_width := 1920,
      viewport_height := 1080,
      state := SessionState.uninitialized,
      created_at := now,
      expires_at := now + (cfg.map PlatformConfig.session_lifetime_hours).getD 24 * 3600,
      last_activity := now,
      rate_limit_reset := none,
      request_count := 0,
      max_requests_per_hour := (cfg.map PlatformConfig.max_requests_per_hour).getD 60,
      fingerprint := H.fpHash platform now }
  initializeSession s now out

/-- The Gateway outcomes one getSession call may consume: a probe for a
cached record, a probe for a restored record, and an initialization. -/
structure GetOracle where
  probeCached : GatewayOutcome InitResult
  probeRestored : GatewayOutcome InitResult
  initResult : GatewayOutcome InitResult
deriving Repr

/-- Result of one getSession call: the returned record or the propagated
exception, the manager state afterwards, and whether a Gateway
initialization action was performed during the call. -/
structure GetOutcome where
  result : Except SessionError SessionData
  ms : ManagerState
  didInit : Bool
deriving Repr

/-- The creation tail of get_session (lines 152 to 157): create, and on
success cache and persist. -/
def getSessionCreate (H : HashFns) (ms : ManagerState) (p : String) (now : Nat)
    (o : GetOracle) : GetOutcome :=
  match createNewSession H p now o.initResult with
  | (s, Except.ok _, di) =>
      { result := Except.ok s,
        ms := { active_sessions := dictInsert ms.active_sessions p s,
                store := persistSession ms.store s now },
        didInit := di }
  | (_, Except.error e, di) =>
      { result := Except.error e, ms := ms, didInit := di }

/-- The restore attempt of get_session (lines 146 to 150): restore from
storage, validate, and on success adopt into the cache (no persist). -/
def getSessionRestore (H : HashFns) (ms : ManagerState) (p : String) (now : Nat)
    (o : GetOracle) : GetOutcome :=
  match restoreSession ms.store p with
  | some r =>
      let vr := validateSession r now o.probeRestored
      if vr.1 then
        { result := Except.ok vr.2,
          ms := { ms with active_sessions := dictInsert ms.active_sessions p vr.2 },
          didInit := false }
      else getSessionCreate H ms p now o
  | none => getSessionCreate H ms p now o

/-- get_session: under the per-target lock, try the validated cache entry
(bumping activity and persisting), evicting it when invalid; then the
storage restore; then creation.  force_new skips the cache and restore
attempts without evicting anything. -/
def getSession (H : HashFns) (ms : ManagerState) (p : String) (forceNew : Bool)
    (now : Nat) (o : GetOracle) : GetOutcome :=
  if forceNew then getSessionCreate H ms p now o
  else
    match ms.active_sessions.lookup p with
    | some s =>
        let vr := validateSession s now o.probeCached
        if vr.1 then
          let s2 := updateSessionActivity vr.2 now
          { result := Except.ok s2,
            ms := { active_sessions := dictInsert ms.active_sessions p s2,
                    store := persistSession ms.store s2 now },
            didInit := false }
        else
          getSessionRestore H
            { ms with active_sessions := dictRemove ms.active_sessions p } p now o
    | none => getSessionRestore H ms p now o

/-- handle_rate_limit applied to the cached record of a target: force
RATE_LIMITED with the platform cool-down and persist. -/
def handleRateLimitOp (ms : ManagerState) (p : String) (hint : Option String)
    (now : Nat) : ManagerState :=
  match ms.active_sessions.lookup p with
  | some s =>
      let s2 := handleRateLimitRecord s now hint
      { active_sessions := dictInsert ms.active_sessions p s2,
        store := persistSession ms.store s2 now }
  | none => ms

/-- handle_authentication_required applied to the cached record of a
target.  Success merges tokens and cookies, becomes ACTIVE and persists;
a failure outcome becomes ERROR and returns False without persisting; a
raised Gateway exception becomes ERROR and re-raises without persisting. -/
def handleAuthOp (ms : ManagerState) (p : String)
    (out : GatewayOutcome AuthResult) (now : Nat) :
    Except SessionError Bool × ManagerState :=
  match ms.active_sessions.lookup p with
  | some s =>
      match out with
      | .ok r =>
          if r.success then
            let s2 := { s with auth_tokens := dictUpdatePairs s.auth_tokens r.auth_tokens,
                               cookies := s.cookies ++ r.cookies,
                               state := SessionState.active }
            (Except.ok true,
             { active_sessions := dictInsert ms.active_sessions p s2,
               store := persistSession ms.store s2 now })
          else
            (Except.ok false,
             { ms with active_sessions :=
                 dictInsert ms.active_sessions p { s with state := SessionState.error } })
      | .fault =>
          (Except.error SessionError.initFailed,
           { ms with active_sessions :=
               dictInsert ms.active_sessions p { s with state := SessionState.error } })
  | none => (Except.ok false, ms)

/-- cleanup_expired_sessions: drop expired cache entries; prune store
blobs whose storage age exceeds 7 days (604800 seconds). -/
def cleanupOp (ms : ManagerState) (now : Nat) : ManagerState :=
  { active_sessions := ms.active_sessions.filter
      (fun kv => !(decide (now > kv.2.expires_at))),
    store := ms.store.filter (fun e => !(decide (e.mtime < now - 604800))) }

/-!  Operational traces over the public interface. -/

/-- One public operation together with the wall-clock time at which it
runs and the Gateway outcomes it consumes. -/
inductive Op where
  | get (platform : String) (forceNew : Bool) (now : Nat) (o : GetOracle)
  | rateLimit (platform : String) (hint : Option String) (now : Nat)
  | auth (platform : String) (out : GatewayOutcome AuthResult) (now : Nat)
  | cleanup (now : Nat)
  | stats

/-- A run carries the manager state plus two trace observations: how many
Gateway initialization actions have been performed and the results of the
getSession calls in order. -/
structure RunState where
  ms : ManagerState
  inits : Nat
  returned : List (Except SessionError SessionData)

def step (H : HashFns) (rs : RunState) (op : Op) : RunState :=
  match op with
  | .get p fn now o =>
      let g := getSession H rs.ms p fn now o
      { ms := g.ms,
        inits := rs.inits + (if g.didInit then 1 else 0),
        returned := rs.returned ++ [g.result] }
  | .rateLimit p hint now => { rs with ms := handleRateLimitOp rs.ms p hint now }
  | .auth p out now => { rs with ms := (handleAuthOp rs.ms p out now).2 }
  | .cleanup now => { rs with ms := cleanupOp rs.ms now }
  | .stats => rs

def initialRun : RunState := ⟨emptyMS, 0, []⟩

def run (H : HashFns) (ops : List Op) : RunState :=
  ops.foldl (step H) initialRun

/-- A Gateway result reporting plain success with nothing extracted: the
literal value returned by the placeholder _execute_computer_action. -/
def okInit : InitResult := ⟨true, [], [], [], [], []⟩

def oracleOK : GetOracle := ⟨.ok okInit, .ok okInit, .ok okInit⟩

/-- Concrete instantiation of the hash parameters for concrete traces. -/
def hashC : HashFns := ⟨fun _ => "a0a0a0a0", fun _ _ => "f1f1f1f1f1f1f1f1"⟩

/-!  Definitions used by the statements of the theorems below. -/

/-- A Gateway initialization outcome that the claims call a failure: a
raised exception, or a structured result with non-success status. -/
def initFails (out : GatewayOutcome InitResult) : Prop :=
  out = GatewayOutcome.fault ∨ ∃ r, out = GatewayOutcome.ok r ∧ r.success = false

/-- The rejection condition exactly as the validity-check claim words it:
expired, or BLOCKED, or RATE_LIMITED with the cool-down not yet elapsed.
This definition follows the claim, to be compared with validateSession. -/
def rejectedPerClaim (s : SessionData) (now : Nat) : Bool :=
  decide (now > s.expires_at) || decide (s.state = SessionState.blocked) ||
    (decide (s.state = SessionState.rateLimited) &&
      (match s.rate_limit_reset with
       | some r => decide (now < r)
       | none => false))

/-- Forward direction of the claimed iff invariant: a RATE_LIMITED record
carries a reset time. -/
def resetIffForward (s : SessionData) : Prop :=
  s.state = SessionState.rateLimited → s.rate_limit_reset ≠ none

/-- The forward invariant over a whole manager state: every cached record
and every deserializable stored blob satisfies it. -/
def cacheStoreInv (ms : ManagerState) : Prop :=
  (∀ kv ∈ ms.active_sessions, resetIffForward kv.2) ∧
  (∀ e ∈ ms.store, ∀ s, deserializeRecord e.blob = some s → resetIffForward s)

/-- A successful Gateway authentication outcome with nothing extracted. -/
def authOK : GatewayOutcome AuthResult := GatewayOutcome.ok ⟨true, [], []⟩

/-- n getSession calls for one platform in the same second, the Gateway
succeeding throughout: the serialized execution of n concurrent callers. -/
def getsN (p : String) (n : Nat) (t : Nat) : List Op :=
  List.replicate n (Op.get p false t oracleOK)

/-- Trace for the rate-limit-reset counterexample: create a session, force
a rate limit, then call getSession after the cool-down has elapsed. -/
def traceC2 : List Op :=
  [Op.get "chatgpt" false 0 oracleOK,
   Op.rateLimit "chatgpt" none 0,
   Op.get "chatgpt" false 1800 oracleOK]

/-- Trace for the request-count counterexample: reach the cap through
getSession calls, recover through a successful authentication, then call
getSession once more. -/
def traceC3 : List Op :=
  getsN "perplexity" 26 0 ++ [Op.auth "perplexity" authOK 0] ++ getsN "perplexity" 1 0

/-- Trace for the session-id counterexample: two forced creations for the
same target in the same second. -/
def traceC7 : List Op :=
  [Op.get "chatgpt" true 5 oracleOK, Op.get "chatgpt" true 5 oracleOK]

/-- The session id carried by a getSession result (empty on failure). -/
def sidOf : Except SessionError SessionData → String
  | Except.ok s => s.session_id
  | Except.error _ => ""

/-- A concrete record for target a, used by the Store round-trip claim. -/
def recTargetA : SessionData :=
  ⟨"a", "s1", [], [], [], [], "ua", 1, 1, SessionState.active, 0, 100, 0, none, 0, 60, "fpA"⟩

/-- A concrete record for target a_b, whose blob filename matches the glob
pattern a_*.pkl used for target a. -/
def recTargetAB : SessionData :=
  ⟨"a_b", "s2", [], [], [], [], "ua", 1, 1, SessionState.active, 0, 100, 0, none, 0, 60, "fpB"⟩

/-- A concrete RATE_LIMITED record used by witnesses. -/
def rlRec : SessionData :=
  ⟨"chatgpt", "sid", [], [], [], [], "ua", 1, 1, SessionState.rateLimited,
   0, 9999, 0, some 50, 7, 50, "fp"⟩

/-- The cached record after k successful getSession calls for platform p
at time t from an empty manager, the Gateway succeeding throughout
(1 ≤ k ≤ cap + 1, cap the configured hourly maximum). -/
def recAfterGets (H : HashFns) (p : String) (t : Nat) (cfg : PlatformConfig)
    (k : Nat) : SessionData :=
  { platform := p,
    session_id := generateSessionId H p t,
    cookies := [],
    local_storage := [],
    session_storage := [],
    auth_tokens := [],
    user_agent := uaString,
    viewport_width := 1920,
    viewport_height := 1080,
    state := if k - 1 < cfg.max_requests_per_hour
      then SessionState.active else SessionState.rateLimited,
    created_at := t,
    expires_at := t + cfg.session_lifetime_hours * 3600,
    last_activity := t,
    rate_limit_reset := if k - 1 < cfg.max_requests_per_hour
      then none else some (t + 3600),
    request_count := k - 1,
    max_requests_per_hour := cfg.max_requests_per_hour,
    fingerprint := H.fpHash p t }

/-- The whole run state after k such calls: one cached record, its blob in
the store, one Gateway initialization performed, and the k returned
records in order. -/
def stateAfterGets (H : HashFns) (p : String) (t : Nat) (cfg : PlatformConfig)
    (k : Nat) : RunState :=
  { ms := { active_sessions := [(p, recAfterGets H p t cfg k)],
            store := [⟨sessionFilename (recAfterGets H p t cfg k), t,
                       serializeRecord (recAfterGets H p t cfg k)⟩] },
    inits := 1,
    returned := (List.range k).map
      (fun j => Except.ok (recAfterGets H p t cfg (j + 1))) }

/-- The record returned by getSession for chatgpt at t = 1 from an empty
manager with the always-succeeding Gateway, used by a witness below. -/
def wRecC1 : SessionData :=
  ⟨"chatgpt", "chatgpt_1_a0a0a0a0", [], [], [], [], uaString, 1920, 1080,
   SessionState.active, 1, 86401, 1, none, 0, 50, "f1f1f1f1f1f1f1f1"⟩

/-!  Helper lemmas. -/

theorem digitChar_toNat (d : Nat) (h : d < 10) : (Nat.digitChar d).toNat - 48 = d := by
  have : ∀ d : Nat, d < 10 → (Nat.digitChar d).toNat - 48 = d := by decide
  exact this d h

theorem decodeChars_append_one (l : List Char) (c : Char) :
    decodeChars (l ++ [c]) = decodeChars l * 10 + (c.toNat - 48) := by
  simp [decodeChars, List.foldl_append]

theorem decodeChars_natCharsAux (fuel n : Nat) (hf : n < fuel) :
    decodeChars (natCharsAux fuel n) = n := by
  induction fuel generalizing n with
  | zero => omega
  | succ f ih =>
    rw [natCharsAux]
    by_cases h : n < 10
    · simp only [h, if_pos]
      simp [decodeChars, digitChar_toNat n h]
    · simp only [h, if_neg, not_false_iff]
      rw [decodeChars_append_one]
      rw [ih (n / 10) (by omega)]
      rw [digitChar_toNat (n % 10) (Nat.mod_lt n (by omega))]
      omega

theorem decodeChars_natChars (n : Nat) : decodeChars (natChars n) = n :=
  decodeChars_natCharsAux (n + 1) n (by omega)

theorem natChars_injective : Function.Injective natChars := by
  intro a b h
  have ha := decodeChars_natChars a
  have hb := decodeChars_natChars b
  rw [h] at ha
  omega

theorem natStr_injective : Function.Injective natStr := by
  intro a b h
  apply natChars_injective
  have : (natStr a).data = (natStr b).data := by rw [h]
  simpa [natStr] using this

theorem deserialize_serialize (s : SessionData) :
    deserializeRecord (serializeRecord s) = some s := rfl

theorem startsList_same_append (a b : List Char) :
    startsList a (a ++ b) = true := by
  induction a with
  | nil => rfl
  | cons c cs ih => simp [startsList, ih]

theorem endsList_append_same (a b : List Char) :
    endsList b (a ++ b) = true := by
  simp [endsList, List.reverse_append, startsList_same_append]

theorem lookup_mem {d : List (String × SessionData)} {k : String} {v : SessionData}
    (h : d.lookup k = some v) : (k, v) ∈ d := by
  induction d with
  | nil => simp [List.lookup] at h
  | cons a as ih =>
    rw [List.lookup] at h
    by_cases hk : k == a.1
    · simp only [hk, if_pos] at h
      have hk2 : k = a.1 := by
        have := of_decide_eq_true (by simpa using hk)
        exact this
      have hv : a.2 = v := by injection h
      have he : (k, v) = a := by rw [hk2, ← hv]
      rw [he]
      exact List.mem_cons_self a as
    · simp only [hk] at h
      exact List.mem_cons_of_mem a (ih h)

theorem mem_dictInsert {d : List (String × SessionData)} {k : String}
    {v : SessionData} {kv : String × SessionData}
    (h : kv ∈ dictInsert d k v) : kv.2 = v ∨ kv ∈ d := by
  unfold dictInsert at h
  by_cases ha : d.any (fun kv => kv.1 == k)
  · rw [if_pos ha] at h
    obtain ⟨a, hm, he⟩ := List.mem_map.mp h
    by_cases hk : a.1 == k
    · rw [if_pos hk] at he
      left
      rw [← he]
    · rw [if_neg hk] at he
      right
      rw [← he]
      exact hm
  · rw [if_neg ha] at h
    rcases List.mem_append.mp h with hm | hm
    · right; exact hm
    · left
      have he : kv = (k, v) := by simpa using hm
      rw [he]

theorem mem_persistSession {st : List StoreEntry} {s : SessionData} {t : Nat}
    {e : StoreEntry} (h : e ∈ persistSession st s t) :
    e ∈ st ∨ e.blob = serializeRecord s := by
  unfold persistSession at h
  rcases List.mem_append.mp h with hm | hm
  · left; exact List.mem_of_mem_filter hm
  · right
    rw [show e = ⟨sessionFilename s, t, serializeRecord s⟩ from by simpa using hm]

theorem latestEntry_mem (es : List StoreEntry) (e : StoreEntry) :
    latestEntry e es ∈ e :: es := by
  induction es generalizing e with
  | nil => simp [latestEntry]
  | cons x xs ih =>
    have step : latestEntry e (x :: xs) =
        latestEntry (if e.mtime < x.mtime then x else e) xs := by
      simp [latestEntry]
    rw [step]
    have := ih (if e.mtime < x.mtime then x else e)
    rcases List.mem_cons.mp this with h1 | h1
    · rw [h1]
      by_cases hc : e.mtime < x.mtime
      · simp [hc]
      · simp [hc]
    · simp [h1]

theorem restoreSession_mem {st : List StoreEntry} {p : String} {r : SessionData}
    (h : restoreSession st p = some r) :
    ∃ e ∈ st, deserializeRecord e.blob = some r := by
  unfold restoreSession at h
  cases hf : st.filter (fun e => matchesGlob p e.filename) with
  | nil => rw [hf] at h; cases h
  | cons e es =>
    rw [hf] at h
    refine ⟨latestEntry e es, ?_, h⟩
    have hm : latestEntry e es ∈ e :: es := latestEntry_mem es e
    rw [show e :: es = st.filter (fun e => matchesGlob p e.filename) from hf.symm] at hm
    exact List.mem_of_mem_filter hm

/-- C6: the validity check returns false exactly when the record is
expired, or BLOCKED, or RATE_LIMITED with the cool-down not yet elapsed;
otherwise it returns the outcome of the external liveness probe, so no
other state (ERROR, UNINITIALIZED, INITIALIZING, EXPIRED literal) is
rejected on state alone. -/
theorem validity_check_characterization (s : SessionData) (now : Nat)
    (probe : GatewayOutcome InitResult) :
    (validateSession s now probe).1 =
      (!rejectedPerClaim s now && testSessionConnectivity probe) := by
  unfold validateSession rejectedPerClaim coolingDown
  by_cases h1 : now > s.expires_at
  · simp [h1]
  · cases hrr : s.rate_limit_reset with
    | none =>
      cases hst : s.state <;> simp [h1, hst]
    | some r =>
      by_cases h2 : now < r
      · cases hst : s.state <;> simp [h1, hst, h2]
      · cases hst : s.state <;> simp [h1, hst, h2]

/-- C3 counterexample: a reachable sequence of public operations (26
getSession calls, one successful authentication recovery, one more
getSession call, all on perplexity) leaves the cached record with
requestCount 26 while maxRequestsPerHour is 25 — the count exceeds the
cap, refuting the never-exceeds part of the claim. -/
theorem request_count_exceeds_cap_cex :
    ((run hashC traceC3).ms.active_sessions.lookup "perplexity").map
        (fun s => (s.request_count, s.max_requests_per_hour)) = some (26, 25) ∧
    26 > 25 := by
  exact ⟨rfl, by omega⟩

/-- C3 amended: for a record whose requestCount is below the cap, the
activity update increments the count by exactly one and transitions into
RATE_LIMITED with rateLimitResetAt = now + 1h exactly when the new count
reaches the cap; but the count can exceed the cap under sequences that
include a successful authentication recovery (see the counterexample). -/
theorem activity_update_increment_cap (s : SessionData) (now : Nat)
    (h : s.request_count < s.max_requests_per_hour) :
    (updateSessionActivity s now).request_count = s.request_count + 1 ∧
    ((updateSessionActivity s now).request_count = s.max_requests_per_hour →
      (updateSessionActivity s now).state = SessionState.rateLimited ∧
      (updateSessionActivity s now).rate_limit_reset = some (now + 3600)) ∧
    ((updateSessionActivity s now).request_count ≠ s.max_requests_per_hour →
      (updateSessionActivity s now).state = s.state ∧
      (updateSessionActivity s now).rate_limit_reset = s.rate_limit_reset) := by
  unfold updateSessionActivity
  by_cases hc : s.request_count + 1 ≥ s.max_requests_per_hour
  · have he : s.request_count + 1 = s.max_requests_per_hour := by omega
    simp [hc, he]
  · simp [hc]
    omega

theorem activity_update_increment_cap_w :
    rlRec.request_count < rlRec.max_requests_per_hour ∧
    (updateSessionActivity rlRec 0).request_count = rlRec.request_count + 1 :=
  ⟨by decide, (activity_update_increment_cap rlRec 0 (by decide)).1⟩

/-- C7 counterexample: two Record creations for the same target within the
same second (two forced getSession calls, both performing a Gateway
initialization) generate the same sessionId, refuting global uniqueness. -/
theorem session_id_reuse_cex :
    (run hashC traceC7).inits = 2 ∧
    (run hashC traceC7).returned.map sidOf =
      ["chatgpt_5_a0a0a0a0", "chatgpt_5_a0a0a0a0"] :=
  ⟨rfl, by decide⟩

/-- C7 amended: sessionIds distinguish creations of the same target only
by the creation second: two creations for one target at different integer
seconds get distinct ids, while creations in the same second reuse the
same id (see the counterexample). -/
theorem session_id_distinct_across_seconds (H : HashFns) (p : String)
    (t1 t2 : Nat) (h : generateSessionId H p t1 = generateSessionId H p t2) :
    t1 = t2 := by
  unfold generateSessionId at h
  have hd : (p ++ "_" ++ natStr t1 ++ "_" ++ H.md5hex8 p).data
      = (p ++ "_" ++ natStr t2 ++ "_" ++ H.md5hex8 p).data := by rw [h]
  simp only [String.data_append, List.append_assoc] at hd
  have hd2 := List.append_cancel_left hd
  have hd3 := List.append_cancel_left hd2
  rw [← List.append_assoc, ← List.append_assoc] at hd3
  have hd4 := List.append_cancel_right hd3
  exact natChars_injective (List.append_cancel_right hd4)

theorem session_id_distinct_across_seconds_w :
    generateSessionId hashC "chatgpt" 5 = generateSessionId hashC "chatgpt" 5 ∧
    (5 : Nat) = 5 :=
  ⟨rfl, session_id_distinct_across_seconds hashC "chatgpt" 5 5 rfl⟩

/-- C2 counterexample: create a chatgpt session, force a rate limit
(cool-down 1800s), then call getSession at t = 1800.  The recovery inside
the validity check sets state ACTIVE but leaves rateLimitResetAt set, so a
reachable state has a non-null rateLimitResetAt with state not
RATE_LIMITED, refuting the claimed iff. -/
theorem rate_limit_reset_uncleared_cex :
    ((run hashC traceC2).ms.active_sessions.lookup "chatgpt").map
        (fun s => (s.state, s.rate_limit_reset)) =
      some (SessionState.active, some 1800) := by
  decide

/-- C8 counterexample: getSession on a target absent from the
configuration table fails with the unknown-platform error instead of
succeeding while the default configuration is in effect, refuting the
claim that the call does not fail merely because the target is unknown. -/
theorem unknown_target_get_fails_cex :
    (getSession hashC emptyMS "dealershipai" false 3 oracleOK).result =
      Except.error SessionError.unknownPlatform ∧
    (createNewSession hashC "dealershipai" 3 (GatewayOutcome.ok okInit)).1.max_requests_per_hour
      = 60 := by
  exact ⟨rfl, rfl⟩

theorem createNewSession_unknown_url (H : HashFns) (p : String) (now : Nat)
    (out : GatewayOutcome InitResult) (hurl : platformUrl p = none) :
    (createNewSession H p now out).2.1 = Except.error SessionError.unknownPlatform ∧
    (createNewSession H p now out).2.2 = false := by
  unfold createNewSession initializeSession
  simp [hurl]

theorem getSessionCreate_error (H : HashFns) (ms : ManagerState) (p : String)
    (now : Nat) (o : GetOracle) (e : SessionError)
    (h : (createNewSession H p now o.initResult).2.1 = Except.error e) :
    getSessionCreate H ms p now o =
      { result := Except.error e, ms := ms,
        didInit := (createNewSession H p now o.initResult).2.2 } := by
  unfold getSessionCreate
  rcases hE : createNewSession H p now o.initResult with ⟨s, ex, d⟩
  rw [hE] at h
  simp only at h
  rw [h]

/-- C8 amended: a target absent from the configuration table does produce
a Record built from the defaults (maxRequestsPerHour 60 and a lifetime of
24 hours), but initialization raises the unknown-platform error before
any Gateway call, so getSession on such a target fails rather than
succeeding. -/
theorem unknown_target_defaults_but_error (H : HashFns) (p : String) (now : Nat)
    (out : GatewayOutcome InitResult) (ms : ManagerState) (o : GetOracle)
    (hcfg : platformConfigs p = none) (hurl : platformUrl p = none)
    (hc : ms.active_sessions.lookup p = none)
    (hs : restoreSession ms.store p = none) :
    (createNewSession H p now out).1.max_requests_per_hour = 60 ∧
    (createNewSession H p now out).1.expires_at = now + 24 * 3600 ∧
    (createNewSession H p now out).2.1 = Except.error SessionError.unknownPlatform ∧
    (createNewSession H p now out).2.2 = false ∧
    (getSession H ms p false now o).result = Except.error SessionError.unknownPlatform ∧
    (getSession H ms p false now o).ms = ms := by
  have h1 : (createNewSession H p now out).1.max_requests_per_hour = 60 ∧
      (createNewSession H p now out).1.expires_at = now + 24 * 3600 := by
    unfold createNewSession initializeSession
    simp [hcfg, hurl]
  have h2 := createNewSession_unknown_url H p now out hurl
  have h3 := createNewSession_unknown_url H p now o.initResult hurl
  have h4 := getSessionCreate_error H ms p now o SessionError.unknownPlatform h3.1
  have h5 : getSession H ms p false now o = getSessionCreate H ms p now o := by
    unfold getSession getSessionRestore
    rw [hc, hs]
    simp
  refine ⟨h1.1, h1.2, h2.1, h2.2, ?_, ?_⟩
  · rw [h5, h4]
  · rw [h5, h4]

/-!  Lemmas for the Store round-trip claim. -/

theorem latestEntry_concat (l : List StoreEntry) (e x : StoreEntry)
    (h : (latestEntry e l).mtime < x.mtime) : latestEntry e (l ++ [x]) = x := by
  unfold latestEntry at h ⊢
  rw [List.foldl_append]
  simp [h]

theorem sessionFilename_matches (s : SessionData) :
    matchesGlob s.platform (sessionFilename s) = true := by
  unfold matchesGlob sessionFilename
  rw [Bool.and_eq_true]
  constructor
  · have hd : (s.platform ++ "_" ++ s.session_id ++ ".pkl").data
        = (s.platform ++ "_").data ++ (s.session_id.data ++ ".pkl".data) := by
      simp [String.data_append, List.append_assoc]
    rw [hd]
    exact startsList_same_append _ _
  · have hd : (s.platform ++ "_" ++ s.session_id ++ ".pkl").data
        = (s.platform ++ "_" ++ s.session_id).data ++ ".pkl".data := by
      simp [String.data_append, List.append_assoc]
    rw [hd]
    exact endsList_append_same _ _

/-- C9 counterexample: write a record for target a, then a record for the
distinct target a_b (not a write for target a), then read the most recent
record for target a.  The a_b blob matches the glob a_*.pkl and is newer,
so the read returns the a_b record, not the one written for a. -/
theorem store_roundtrip_shadowed_cex :
    restoreSession (persistSession (persistSession [] recTargetA 10) recTargetAB 20) "a"
      = some recTargetAB ∧
    recTargetAB ≠ recTargetA ∧
    recTargetAB.platform = "a_b" ∧ recTargetA.platform = "a" := by
  refine ⟨by decide, by decide, rfl, rfl⟩

/-- C9 amended: put followed by mostRecent for the same target returns a
Record equal in all fields to the one written, provided every already
stored blob matching the glob of that target is strictly older than the
write; an intervening write for a different target whose filename matches
the glob (such as a_b against a) can shadow the record, as the
counterexample shows. -/
theorem store_roundtrip_after_put (st : List StoreEntry) (s : SessionData)
    (t : Nat)
    (h : ∀ e ∈ st, matchesGlob s.platform e.filename = true → e.mtime < t) :
    restoreSession (persistSession st s t) s.platform = some s := by
  unfold restoreSession persistSession
  rw [List.filter_append]
  have hng : (List.filter (fun (e : StoreEntry) => matchesGlob s.platform e.filename)
      ([⟨sessionFilename s, t, serializeRecord s⟩] : List StoreEntry))
      = ([⟨sessionFilename s, t, serializeRecord s⟩] : List StoreEntry) := by
    simp [sessionFilename_matches s]
  rw [hng]
  cases hl : (st.filter (fun e => !(e.filename == sessionFilename s))).filter
      (fun e => matchesGlob s.platform e.filename) with
  | nil =>
    simp only [hl, List.nil_append]
    exact deserialize_serialize s
  | cons e es =>
    simp only [hl, List.cons_append]
    have hmem : latestEntry e es ∈ e :: es := latestEntry_mem es e
    rw [show e :: es = _ from hl.symm] at hmem
    have hin : latestEntry e es ∈ st := by
      have h1 := List.mem_of_mem_filter hmem
      exact List.mem_of_mem_filter h1
    have hmatch : matchesGlob s.platform (latestEntry e es).filename = true := by
      have := List.mem_filter.mp hmem
      simpa using this.2
    have hmt : (latestEntry e es).mtime < t := h _ hin hmatch
    rw [latestEntry_concat es e _ hmt]
    exact deserialize_serialize s

theorem store_roundtrip_after_put_w :
    restoreSession (persistSession [] recTargetA 10) recTargetA.platform
      = some recTargetA :=
  store_roundtrip_after_put [] recTargetA 10 (by intro e he; cases he)

theorem unknown_target_defaults_but_error_w :
    (createNewSession hashC "dealershipai" 3 (GatewayOutcome.ok okInit)).1.max_requests_per_hour = 60 ∧
    (createNewSession hashC "dealershipai" 3 (GatewayOutcome.ok okInit)).1.expires_at = 3 + 24 * 3600 ∧
    (createNewSession hashC "dealershipai" 3 (GatewayOutcome.ok okInit)).2.1 =
      Except.error SessionError.unknownPlatform ∧
    (createNewSession hashC "dealershipai" 3 (GatewayOutcome.ok okInit)).2.2 = false ∧
    (getSession hashC emptyMS "dealershipai" false 3 oracleOK).result =
      Except.error SessionError.unknownPlatform ∧
    (getSession hashC emptyMS "dealershipai" false 3 oracleOK).ms = emptyMS :=
  unknown_target_defaults_but_error hashC "dealershipai" 3 (GatewayOutcome.ok okInit)
    emptyMS oracleOK rfl rfl rfl rfl

theorem lookup_map_overwrite {d : List (String × SessionData)} {k : String}
    {s : SessionData} (v : SessionData) (h : d.lookup k = some s) :
    (d.map (fun kv => if kv.1 == k then (k, v) else kv)).lookup k = some v := by
  induction d with
  | nil => simp [List.lookup] at h
  | cons a as ih =>
    by_cases hk : a.1 == k
    · simp only [List.map_cons, if_pos hk]
      simp [List.lookup]
    · simp only [List.map_cons, if_neg hk]
      have hne : a.1 ≠ k := by simpa using hk
      have hk2 : (k == a.1) = false := beq_eq_false_iff_ne.mpr (Ne.symm hne)
      rw [List.lookup] at h
      rw [List.lookup]
      rw [hk2] at h
      rw [hk2]
      exact ih h

theorem lookup_dictInsert {d : List (String × SessionData)} {k : String}
    {s : SessionData} (v : SessionData) (h : d.lookup k = some s) :
    (dictInsert d k v).lookup k = some v := by
  unfold dictInsert
  have hany : d.any (fun kv => kv.1 == k) = true := by
    have hm := lookup_mem h
    exact List.any_eq_true.mpr ⟨(k, s), hm, by simp⟩
  rw [if_pos hany]
  exact lookup_map_overwrite v h

/-- C10: when handleAuthRequired receives a failure outcome from the
Gateway (without a raised exception), it returns False, sets the cached
Record to ERROR in memory, and writes nothing to the Store, leaving the
durable blob as it was — memory and storage disagree afterwards. -/
theorem auth_failure_memory_only (ms : ManagerState) (p : String)
    (s : SessionData) (r : AuthResult) (now : Nat)
    (hc : ms.active_sessions.lookup p = some s) (hf : r.success = false) :
    (handleAuthOp ms p (GatewayOutcome.ok r) now).1 = Except.ok false ∧
    (handleAuthOp ms p (GatewayOutcome.ok r) now).2.store = ms.store ∧
    (handleAuthOp ms p (GatewayOutcome.ok r) now).2.active_sessions.lookup p =
      some { s with state := SessionState.error } := by
  unfold handleAuthOp
  rw [hc]
  simp only [hf, Bool.false_eq_true, if_neg, not_false_iff]
  refine ⟨by trivial, by trivial, ?_⟩
  exact lookup_dictInsert _ hc

theorem auth_failure_memory_only_w :
    (handleAuthOp ⟨[("chatgpt", rlRec)], []⟩ "chatgpt"
        (GatewayOutcome.ok ⟨false, [], []⟩) 0).1 = Except.ok false ∧
    (handleAuthOp ⟨[("chatgpt", rlRec)], []⟩ "chatgpt"
        (GatewayOutcome.ok ⟨false, [], []⟩) 0).2.store = ([] : List StoreEntry) ∧
    (handleAuthOp ⟨[("chatgpt", rlRec)], []⟩ "chatgpt"
        (GatewayOutcome.ok ⟨false, [], []⟩) 0).2.active_sessions.lookup "chatgpt" =
      some { rlRec with state := SessionState.error } :=
  auth_failure_memory_only ⟨[("chatgpt", rlRec)], []⟩ "chatgpt" rlRec
    ⟨false, [], []⟩ 0 rfl rfl

theorem initializeSession_failure (s : SessionData) (now : Nat)
    (out : GatewayOutcome InitResult) (u : String)
    (hfail : initFails out) (hurl : platformUrl s.platform = some u) :
    (initializeSession s now out).1.state = SessionState.error ∧
    (initializeSession s now out).2.1 = Except.error SessionError.initFailed ∧
    (initializeSession s now out).2.2 = true := by
  unfold initializeSession
  rcases hfail with hft | ⟨r, hro, hrs⟩
  · subst hft
    simp [hurl]
  · subst hro
    simp [hurl, hrs]

theorem createNewSession_fails (H : HashFns) (p : String) (now : Nat)
    (out : GatewayOutcome InitResult) (u : String)
    (hfail : initFails out) (hurl : platformUrl p = some u) :
    (createNewSession H p now out).2.1 = Except.error SessionError.initFailed ∧
    (createNewSession H p now out).2.2 = true := by
  unfold createNewSession initializeSession
  rcases hfail with hft | ⟨r, hro, hrs⟩
  · subst hft
    simp [hurl]
  · subst hro
    simp [hurl, hrs]

/-- C5: when the Gateway initialization action raises or returns a failure
outcome during the creation path of getSession, the record is left in
state ERROR, the call reports a failure to the caller, and nothing is
added to the in-memory cache or written to the Store by that call. -/
theorem init_failure_no_cache_no_persist (H : HashFns) (ms : ManagerState)
    (p : String) (u : String) (now : Nat) (o : GetOracle)
    (hfail : initFails o.initResult)
    (hurl : platformUrl p = some u)
    (hc : ms.active_sessions.lookup p = none)
    (hs : restoreSession ms.store p = none) :
    (∀ s n2 out u2, initFails out → platformUrl s.platform = some u2 →
        (initializeSession s n2 out).1.state = SessionState.error) ∧
    (getSession H ms p false now o).result = Except.error SessionError.initFailed ∧
    (getSession H ms p false now o).ms = ms ∧
    (getSession H ms p false now o).didInit = true := by
  have hcf := createNewSession_fails H p now o.initResult u hfail hurl
  have h4 := getSessionCreate_error H ms p now o SessionError.initFailed hcf.1
  have h5 : getSession H ms p false now o = getSessionCreate H ms p now o := by
    unfold getSession getSessionRestore
    rw [hc, hs]
    simp
  refine ⟨?_, ?_, ?_, ?_⟩
  · intro s n2 out u2 hf hu
    exact (initializeSession_failure s n2 out u2 hf hu).1
  · rw [h5, h4]
  · rw [h5, h4]
  · rw [h5, h4]
    exact hcf.2

theorem init_failure_no_cache_no_persist_w :
    (getSession hashC emptyMS "chatgpt" false 7
        ⟨GatewayOutcome.ok okInit, GatewayOutcome.ok okInit, GatewayOutcome.fault⟩).result
      = Except.error SessionError.initFailed ∧
    (getSession hashC emptyMS "chatgpt" false 7
        ⟨GatewayOutcome.ok okInit, GatewayOutcome.ok okInit, GatewayOutcome.fault⟩).ms = emptyMS ∧
    (getSession hashC emptyMS "chatgpt" false 7
        ⟨GatewayOutcome.ok okInit, GatewayOutcome.ok okInit, GatewayOutcome.fault⟩).didInit = true := by
  have h := init_failure_no_cache_no_persist hashC emptyMS "chatgpt" "https://chatgpt.com" 7
    ⟨GatewayOutcome.ok okInit, GatewayOutcome.ok okInit, GatewayOutcome.fault⟩
    (Or.inl rfl) rfl rfl rfl
  exact ⟨h.2.1, h.2.2.1, h.2.2.2⟩

theorem validate_false_of_expired (s : SessionData) (now : Nat)
    (probe : GatewayOutcome InitResult) (h : now > s.expires_at) :
    validateSession s now probe = (false, s) := by
  unfold validateSession
  rw [if_pos h]

theorem createNewSession_ok_fields (H : HashFns) (p : String) (now : Nat)
    (out : GatewayOutcome InitResult) (s : SessionData) (d : Bool)
    (h : createNewSession H p now out = (s, Except.ok (), d)) :
    s.created_at = now ∧ s.request_count = 0 ∧ ¬ now > s.expires_at ∧ d = true := by
  unfold createNewSession initializeSession at h
  cases hu : platformUrl p with
  | none => simp [hu] at h
  | some url =>
    cases out with
    | fault => simp [hu] at h
    | ok r =>
      by_cases hrs : r.success = true
      · simp only [hu, hrs, if_pos, Prod.mk.injEq] at h
        obtain ⟨h1, _, h3⟩ := h
        refine ⟨?_, ?_, ?_, h3.symm⟩
        · rw [← h1]
        · rw [← h1]
        · rw [← h1]
          simp
      · simp [hu, hrs] at h

theorem getSessionCreate_ok (H : HashFns) (ms : ManagerState) (p : String)
    (now : Nat) (o : GetOracle) (rec : SessionData)
    (h : (getSessionCreate H ms p now o).result = Except.ok rec) :
    rec.created_at = now ∧ rec.request_count = 0 ∧ ¬ now > rec.expires_at ∧
    (getSessionCreate H ms p now o).didInit = true := by
  unfold getSessionCreate at h ⊢
  rcases hE : createNewSession H p now o.initResult with ⟨s, ex, d⟩
  rw [hE] at h
  cases ex with
  | error e => simp at h
  | ok u =>
    cases u
    simp only [] at h ⊢
    have hs : s = rec := by
      have := h
      simpa using this
    have hf := createNewSession_ok_fields H p now o.initResult s d hE
    rw [hs] at hf
    exact ⟨hf.1, hf.2.1, hf.2.2.1, hf.2.2.2⟩

theorem getSessionRestore_eq_create (H : HashFns) (ms : ManagerState)
    (p : String) (now : Nat) (o : GetOracle)
    (hr : ∀ s, restoreSession ms.store p = some s → now > s.expires_at) :
    getSessionRestore H ms p now o = getSessionCreate H ms p now o := by
  unfold getSessionRestore
  cases hrr : restoreSession ms.store p with
  | none => rfl
  | some r =>
    have hex := hr r hrr
    simp [validate_false_of_expired r now o.probeRestored hex]

/-- C1: once a Record is expired, getSession never returns it, whether it
sits in the in-memory cache or is restorable from the Store; provided
everything held for the target is expired, a successful call returns a
Record freshly created at this call (createdAt = now, zero counter, one
Gateway initialization performed). -/
theorem expired_record_never_returned (H : HashFns) (ms : ManagerState)
    (p : String) (fn : Bool) (now : Nat) (o : GetOracle)
    (hc : ∀ s, ms.active_sessions.lookup p = some s → now > s.expires_at)
    (hr : ∀ s, restoreSession ms.store p = some s → now > s.expires_at) :
    (∀ R rec, now > R.expires_at →
        (getSession H ms p fn now o).result = Except.ok rec → rec ≠ R) ∧
    (∀ rec, (getSession H ms p fn now o).result = Except.ok rec →
        rec.created_at = now ∧ rec.request_count = 0 ∧
        (getSession H ms p fn now o).didInit = true) := by
  have hred : ∃ ms2 : ManagerState, ms2.store = ms.store ∧
      getSession H ms p fn now o = getSessionCreate H ms2 p now o := by
    cases fn with
    | true =>
      refine ⟨ms, rfl, ?_⟩
      unfold getSession
      simp
    | false =>
      cases hcl : ms.active_sessions.lookup p with
      | none =>
        refine ⟨ms, rfl, ?_⟩
        unfold getSession
        simp only [Bool.false_eq_true, if_neg, not_false_iff, hcl]
        exact getSessionRestore_eq_create H ms p now o hr
      | some s =>
        have hex := hc s hcl
        refine ⟨{ ms with active_sessions := dictRemove ms.active_sessions p },
          rfl, ?_⟩
        unfold getSession
        simp only [Bool.false_eq_true, if_neg, not_false_iff, hcl]
        simp only [validate_false_of_expired s now o.probeCached hex]
        simp only [Bool.false_eq_true, if_neg, not_false_iff]
        exact getSessionRestore_eq_create H _ p now o hr
  obtain ⟨ms2, hst, heq⟩ := hred
  constructor
  · intro R rec hexp hres
    rw [heq] at hres
    have hf := getSessionCreate_ok H ms2 p now o rec hres
    intro hcontra
    rw [hcontra] at hf
    exact hf.2.2.1 hexp
  · intro rec hres
    rw [heq] at hres
    have hf := getSessionCreate_ok H ms2 p now o rec hres
    refine ⟨hf.1, hf.2.1, ?_⟩
    rw [heq]
    exact hf.2.2.2

theorem expired_record_never_returned_w :
    wRecC1.created_at = 1 ∧ wRecC1.request_count = 0 ∧
    (getSession hashC emptyMS "chatgpt" false 1 oracleOK).didInit = true :=
  (expired_record_never_returned hashC emptyMS "chatgpt" false 1 oracleOK
      (by intro s hs; simp [emptyMS] at hs)
      (by intro s hs; simp [restoreSession, emptyMS] at hs)).2
    wRecC1 rfl

/-- C4 counterexample: 27 serialized getSession calls for perplexity (cap
25) in the same second, starting with no session anywhere and with every
Gateway action succeeding, perform two Gateway initializations rather
than exactly one: call 26 rate-limits the record, and call 27 finds it
invalid and creates a fresh one. -/
theorem concurrent_get_second_init_cex :
    (run hashC (getsN "perplexity" 27 0)).inits = 2 := rfl

theorem validate_snd (s : SessionData) (now : Nat)
    (probe : GatewayOutcome InitResult) :
    (validateSession s now probe).2 =
      if now > s.expires_at then s
      else if s.state = SessionState.rateLimited ∧ coolingDown s now = true then s
      else if s.state = SessionState.rateLimited
        then { s with state := SessionState.active, request_count := 0 }
        else s := by
  unfold validateSession
  by_cases h1 : now > s.expires_at
  · simp [h1]
  · by_cases h2 : s.state = SessionState.rateLimited ∧ coolingDown s now = true
    · simp [h1, h2]
    · by_cases h3 : s.state = SessionState.rateLimited
      · have hcool : ¬ coolingDown s now = true := fun hcl => h2 ⟨h3, hcl⟩
        simp [h1, h2, h3, hcool]
      · simp only [h1, h2, h3, if_neg, not_false_iff, if_false]
        by_cases h4 : s.state = SessionState.blocked <;> simp [h4]

theorem rIF_validate (s : SessionData) (now : Nat)
    (probe : GatewayOutcome InitResult) (h : resetIffForward s) :
    resetIffForward (validateSession s now probe).2 := by
  rw [validate_snd]
  split_ifs with h1 h2 h3
  · exact h
  · exact h
  · intro hRL
    simp at hRL
  · exact h

theorem rIF_update (s : SessionData) (now : Nat) (h : resetIffForward s) :
    resetIffForward (updateSessionActivity s now) := by
  unfold updateSessionActivity resetIffForward at *
  by_cases hc : s.request_count + 1 ≥ s.max_requests_per_hour
  · simp [hc]
  · simp only [hc, if_neg, not_false_iff]
    intro hRL
    exact h (by simpa using hRL)

theorem rIF_rateLimitRecord (s : SessionData) (now : Nat) (hint : Option String) :
    resetIffForward (handleRateLimitRecord s now hint) := by
  unfold handleRateLimitRecord resetIffForward
  simp

theorem rIF_initialize (s : SessionData) (now : Nat)
    (out : GatewayOutcome InitResult) :
    resetIffForward (initializeSession s now out).1 := by
  unfold initializeSession resetIffForward
  cases hpu : platformUrl s.platform with
  | none => simp [hpu]
  | some u =>
    cases out with
    | fault => simp [hpu]
    | ok r =>
      by_cases hrs : r.success = true <;> simp [hpu, hrs]

theorem rIF_create (H : HashFns) (p : String) (now : Nat)
    (out : GatewayOutcome InitResult) :
    resetIffForward (createNewSession H p now out).1 := by
  unfold createNewSession
  exact rIF_initialize _ now out

theorem inv_insert_persist (ms : ManagerState) (p : String) (s2 : SessionData)
    (now : Nat) (h : cacheStoreInv ms) (hs2 : resetIffForward s2) :
    cacheStoreInv ⟨dictInsert ms.active_sessions p s2, persistSession ms.store s2 now⟩ := by
  constructor
  · intro kv hkv
    rcases mem_dictInsert hkv with h1 | h1
    · rw [h1]; exact hs2
    · exact h.1 kv h1
  · intro e he r hds
    rcases mem_persistSession he with h1 | h1
    · exact h.2 e h1 r hds
    · rw [h1, deserialize_serialize] at hds
      cases hds
      exact hs2

theorem inv_insert_only (ms : ManagerState) (p : String) (s2 : SessionData)
    (h : cacheStoreInv ms) (hs2 : resetIffForward s2) :
    cacheStoreInv ⟨dictInsert ms.active_sessions p s2, ms.store⟩ := by
  constructor
  · intro kv hkv
    rcases mem_dictInsert hkv with h1 | h1
    · rw [h1]; exact hs2
    · exact h.1 kv h1
  · exact h.2

theorem inv_getSessionCreate (H : HashFns) (ms : ManagerState) (p : String)
    (now : Nat) (o : GetOracle) (h : cacheStoreInv ms) :
    cacheStoreInv (getSessionCreate H ms p now o).ms := by
  unfold getSessionCreate
  rcases hE : createNewSession H p now o.initResult with ⟨s, ex, d⟩
  have hs : resetIffForward s := by
    have := rIF_create H p now o.initResult
    rw [hE] at this
    exact this
  cases ex with
  | error e => exact h
  | ok u => exact inv_insert_persist ms p s now h hs

theorem inv_getSessionRestore (H : HashFns) (ms : ManagerState) (p : String)
    (now : Nat) (o : GetOracle) (h : cacheStoreInv ms) :
    cacheStoreInv (getSessionRestore H ms p now o).ms := by
  unfold getSessionRestore
  cases hrr : restoreSession ms.store p with
  | none => exact inv_getSessionCreate H ms p now o h
  | some r =>
    have hrf : resetIffForward r := by
      obtain ⟨e, he, hd⟩ := restoreSession_mem hrr
      exact h.2 e he r hd
    by_cases hv : (validateSession r now o.probeRestored).1 = true
    · simp only [hv, if_pos]
      exact inv_insert_only ms p _ h (rIF_validate r now o.probeRestored hrf)
    · simp only [hv, if_neg, not_false_iff]
      exact inv_getSessionCreate H ms p now o h

theorem inv_dictRemove (ms : ManagerState) (p : String) (h : cacheStoreInv ms) :
    cacheStoreInv ⟨dictRemove ms.active_sessions p, ms.store⟩ := by
  constructor
  · intro kv hkv
    exact h.1 kv (List.mem_of_mem_filter hkv)
  · exact h.2

theorem inv_getSession (H : HashFns) (ms : ManagerState) (p : String)
    (fn : Bool) (now : Nat) (o : GetOracle) (h : cacheStoreInv ms) :
    cacheStoreInv (getSession H ms p fn now o).ms := by
  unfold getSession
  cases fn with
  | true => simp only [if_pos]; exact inv_getSessionCreate H ms p now o h
  | false =>
    simp only [Bool.false_eq_true, if_neg, not_false_iff]
    cases hcl : ms.active_sessions.lookup p with
    | none => exact inv_getSessionRestore H ms p now o h
    | some s =>
      have hsf : resetIffForward s := h.1 (p, s) (lookup_mem hcl)
      by_cases hv : (validateSession s now o.probeCached).1 = true
      · simp only [hv, if_pos]
        exact inv_insert_persist ms p _ now h
          (rIF_update _ now (rIF_validate s now o.probeCached hsf))
      · simp only [hv, if_neg, not_false_iff]
        exact inv_getSessionRestore H _ p now o (inv_dictRemove ms p h)

theorem inv_step (H : HashFns) (rs : RunState) (op : Op)
    (h : cacheStoreInv rs.ms) : cacheStoreInv (step H rs op).ms := by
  cases op with
  | get p fn now o => exact inv_getSession H rs.ms p fn now o h
  | rateLimit p hint now =>
    show cacheStoreInv (handleRateLimitOp rs.ms p hint now)
    unfold handleRateLimitOp
    cases hcl : rs.ms.active_sessions.lookup p with
    | none => exact h
    | some s => exact inv_insert_persist rs.ms p _ now h (rIF_rateLimitRecord s now hint)
  | auth p out now =>
    show cacheStoreInv (handleAuthOp rs.ms p out now).2
    unfold handleAuthOp
    cases hcl : rs.ms.active_sessions.lookup p with
    | none => exact h
    | some s =>
      cases out with
      | fault =>
        exact inv_insert_only rs.ms p _ h (by intro hRL; simp at hRL)
      | ok r =>
        dsimp only []
        by_cases hrs : r.success = true
        · rw [if_pos hrs]
          exact inv_insert_persist rs.ms p _ now h (by intro hRL; simp at hRL)
        · rw [if_neg hrs]
          exact inv_insert_only rs.ms p _ h (by intro hRL; simp at hRL)
  | cleanup now =>
    show cacheStoreInv (cleanupOp rs.ms now)
    unfold cleanupOp
    constructor
    · intro kv hkv
      exact h.1 kv (List.mem_of_mem_filter hkv)
    · intro e he r hds
      exact h.2 e (List.mem_of_mem_filter he) r hds
  | stats => exact h

theorem inv_run (H : HashFns) (ops : List Op) : cacheStoreInv (run H ops).ms := by
  unfold run
  have hgen : ∀ (l : List Op) (rs : RunState), cacheStoreInv rs.ms →
      cacheStoreInv (l.foldl (step H) rs).ms := by
    intro l
    induction l with
    | nil => intro rs h; exact h
    | cons a as ih =>
      intro rs h
      exact ih (step H rs a) (inv_step H rs a h)
  refine hgen ops initialRun ?_
  constructor
  · intro kv hkv
    simp [initialRun, emptyMS] at hkv
  · intro e he
    simp [initialRun, emptyMS] at he

/-- C2 amended: at every state reachable by sequences of the public
operations the forward direction holds — a RATE_LIMITED record (cached or
stored) always carries a non-null rateLimitResetAt — and the
RATE_LIMITED to ACTIVE recovery in the validity check resets requestCount
to 0; but the recovery does not clear rateLimitResetAt (it leaves it
unchanged), so the claimed iff fails in the other direction, as the
counterexample shows. -/
theorem rate_limit_reset_forward_invariant :
    (∀ (H : HashFns) (ops : List Op), cacheStoreInv (run H ops).ms) ∧
    (∀ (s : SessionData) (now : Nat) (probe : GatewayOutcome InitResult),
      s.state = SessionState.rateLimited → ¬ now > s.expires_at →
      coolingDown s now = false →
      (validateSession s now probe).2.state = SessionState.active ∧
      (validateSession s now probe).2.request_count = 0 ∧
      (validateSession s now probe).2.rate_limit_reset = s.rate_limit_reset) := by
  constructor
  · exact inv_run
  · intro s now probe hRL hexp hcool
    rw [validate_snd]
    rw [if_neg hexp]
    rw [if_neg (by simp [hcool] : ¬ (s.state = SessionState.rateLimited ∧ coolingDown s now = true))]
    rw [if_pos hRL]
    exact ⟨rfl, rfl, rfl⟩

theorem rate_limit_reset_forward_invariant_w :
    cacheStoreInv (run hashC traceC2).ms ∧
    (validateSession rlRec 100 (GatewayOutcome.ok okInit)).2.state = SessionState.active ∧
    (validateSession rlRec 100 (GatewayOutcome.ok okInit)).2.request_count = 0 ∧
    (validateSession rlRec 100 (GatewayOutcome.ok okInit)).2.rate_limit_reset = some 50 :=
  ⟨rate_limit_reset_forward_invariant.1 hashC traceC2,
   rate_limit_reset_forward_invariant.2 rlRec 100 (GatewayOutcome.ok okInit)
     rfl (by decide) (by decide)⟩

theorem createNewSession_okInit (H : HashFns) (p : String) (t : Nat)
    (cfg : PlatformConfig) (u : String)
    (hcfg : platformConfigs p = some cfg) (hurl : platformUrl p = some u)
    (hmax : 0 < cfg.max_requests_per_hour) :
    createNewSession H p t (GatewayOutcome.ok okInit)
      = (recAfterGets H p t cfg 1, Except.ok (), true) := by
  unfold createNewSession initializeSession recAfterGets okInit
  simp [hcfg, hurl, hmax]

theorem validate_active (s : SessionData) (now : Nat)
    (hst : s.state = SessionState.active) (hexp : ¬ now > s.expires_at) :
    validateSession s now (GatewayOutcome.ok okInit) = (true, s) := by
  unfold validateSession testSessionConnectivity okInit
  simp [hst, hexp]

theorem recAfterGets_state_active (H : HashFns) (p : String) (t : Nat)
    (cfg : PlatformConfig) (n : Nat) (h : n - 1 < cfg.max_requests_per_hour) :
    (recAfterGets H p t cfg n).state = SessionState.active := by
  unfold recAfterGets
  dsimp only []
  rw [if_pos h]

theorem recAfterGets_not_expired (H : HashFns) (p : String) (t : Nat)
    (cfg : PlatformConfig) (n : Nat) :
    ¬ t > (recAfterGets H p t cfg n).expires_at := by
  unfold recAfterGets
  dsimp only []
  omega

theorem update_recAfterGets (H : HashFns) (p : String) (t : Nat)
    (cfg : PlatformConfig) (n : Nat) (h1 : 1 ≤ n)
    (h2 : n ≤ cfg.max_requests_per_hour) :
    updateSessionActivity (recAfterGets H p t cfg n) t
      = recAfterGets H p t cfg (n + 1) := by
  unfold updateSessionActivity recAfterGets
  dsimp only []
  by_cases hth : n - 1 + 1 ≥ cfg.max_requests_per_hour
  · rw [if_pos hth]
    have hn : ¬ n < cfg.max_requests_per_hour := by omega
    have ha : n - 1 + 1 = n := by omega
    simp [ha, hn]
  · rw [if_neg hth]
    have hn : n < cfg.max_requests_per_hour := by omega
    have hn2 : n - 1 < cfg.max_requests_per_hour := by omega
    have ha : n - 1 + 1 = n := by omega
    simp [ha, hn, hn2]

theorem run_gets (H : HashFns) (p : String) (t : Nat) (cfg : PlatformConfig)
    (u : String) (hcfg : platformConfigs p = some cfg)
    (hurl : platformUrl p = some u) (hmax : 0 < cfg.max_requests_per_hour) :
    ∀ k, 1 ≤ k → k ≤ cfg.max_requests_per_hour + 1 →
      run H (getsN p k t) = stateAfterGets H p t cfg k := by
  intro k
  induction k with
  | zero => intro h1 _; omega
  | succ n ih =>
    intro _ h2
    by_cases hn0 : n = 0
    · subst hn0
      have hcc : createNewSession H p t oracleOK.initResult
          = (recAfterGets H p t cfg 1, Except.ok (), true) :=
        createNewSession_okInit H p t cfg u hcfg hurl hmax
      show step H initialRun (Op.get p false t oracleOK) = stateAfterGets H p t cfg 1
      unfold step getSession getSessionRestore getSessionCreate restoreSession initialRun emptyMS
      dsimp only []
      rw [hcc]
      rfl
    · have hn1 : 1 ≤ n := by omega
      have hrun := ih hn1 (by omega)
      have hsplit : getsN p (n + 1) t = getsN p n t ++ [Op.get p false t oracleOK] := by
        unfold getsN
        rw [List.replicate_succ']
      have hfold : run H (getsN p (n + 1) t)
          = step H (run H (getsN p n t)) (Op.get p false t oracleOK) := by
        rw [hsplit]
        unfold run
        rw [List.foldl_append]
        rfl
      rw [hfold, hrun]
      have hst : (recAfterGets H p t cfg n).state = SessionState.active :=
        recAfterGets_state_active H p t cfg n (by omega)
      have hexp := recAfterGets_not_expired H p t cfg n
      have hval : validateSession (recAfterGets H p t cfg n) t oracleOK.probeCached
          = (true, recAfterGets H p t cfg n) := validate_active _ t hst hexp
      have hupd := update_recAfterGets H p t cfg n hn1 (by omega)
      unfold step getSession stateAfterGets
      dsimp only []
      rw [show List.lookup p [(p, recAfterGets H p t cfg n)]
          = some (recAfterGets H p t cfg n) from by simp [List.lookup]]
      dsimp only []
      rw [hval]
      dsimp only []
      rw [hupd]
      rw [List.range_succ]
      simp [dictInsert, persistSession]
      rfl

/-- C4 amended: the per-target lock serializes N concurrent getSession
calls; starting with no session anywhere and with every Gateway action
succeeding, for N up to maxRequestsPerHour(T) + 1 exactly one Gateway
initialization is performed and every call returns a Record carrying the
one generated sessionId; beyond that bound the rate limit invalidates the
cached record and a second initialization occurs (see counterexample). -/
theorem serialized_gets_single_init (H : HashFns) (p : String) (t : Nat)
    (cfg : PlatformConfig) (u : String) (n : Nat)
    (hcfg : platformConfigs p = some cfg) (hurl : platformUrl p = some u)
    (hmax : 0 < cfg.max_requests_per_hour)
    (h1 : 1 ≤ n) (h2 : n ≤ cfg.max_requests_per_hour + 1) :
    (run H (getsN p n t)).inits = 1 ∧
    ∀ r ∈ (run H (getsN p n t)).returned,
      ∃ s, r = Except.ok s ∧ s.session_id = generateSessionId H p t := by
  rw [run_gets H p t cfg u hcfg hurl hmax n h1 h2]
  constructor
  · rfl
  · intro r hr
    unfold stateAfterGets at hr
    dsimp only [] at hr
    obtain ⟨j, _, hje⟩ := List.mem_map.mp hr
    exact ⟨recAfterGets H p t cfg (j + 1), hje.symm, rfl⟩

theorem serialized_gets_single_init_w :
    (run hashC (getsN "perplexity" 3 0)).inits = 1 :=
  (serialized_gets_single_init hashC "perplexity" 0
    ⟨false, 25, 6,
      ["You have reached the limit", "Please wait", "Rate limited"],
      ["button login"],
      ["textarea Ask anything"]⟩
    "https://www.perplexity.ai" 3 rfl rfl (by decide) (by decide) (by decide)).1
